import Mathlib

/-!
Formal model of the fleetfs request router
(src/storage/message_handlers/router.rs).

The router's collaborators (the local raft group manager, per-shard raft
handles, the per-shard storage engine, the remote raft client, the
transaction coordinator and the rkyv serialization layer) are modelled as
an environment of oracles (`Env`).  Router computations are embedded in a
trace monad `RouterM`: every collaborator call is recorded in order as an
`RouterAction`, so ordering and dataflow properties of the router are stated as
properties of the produced trace.  A Rust panic (an `unwrap` of a failing
value) is modelled by the `Outcome.diverged` outcome, in which no response
envelope is produced.
-/

inductive DistributionRequirement where
  | Any
  | TransactionCoordinator
  | Node
  | RaftGroup
  deriving DecidableEq

structure RequestMetaInfo where
  distribution_requirement : DistributionRequirement
  raft_group : Option Nat
  inode : Option Nat
  deriving DecidableEq

structure CommitId where
  term : Nat
  index : Nat
  deriving DecidableEq

def CommitId.new (term index : Nat) : CommitId := ⟨term, index⟩

inductive ErrorCode where
  | Uncategorized
  | Other (code : Nat)
  deriving DecidableEq

inductive FileKind where
  | File
  | Directory
  | Symlink
  deriving DecidableEq

inductive RkyvGenericResponse where
  | Empty
  | ErrorOccurred (error_code : ErrorCode)
  | LatestCommit (term : Nat) (index : Nat)
  | NodeId (id : Nat)
  | Payload (data : Nat)
  deriving DecidableEq

/-- Request variants of `ArchivedRkyvRequest`, restricted to the fields the
router reads.  Inodes, raft group ids, uids, gids, modes and user contexts
are unsigned integers; file and xattr names are strings; encoded payloads
are byte lists. -/
inductive RkyvRequest where
  | FilesystemReady
  | FilesystemInformation
  | FilesystemCheck
  | FilesystemChecksum
  | CreateInode (raft_group : Nat)
  | CreateLink (parent : Nat)
  | RemoveLink (parent : Nat)
  | ReplaceLink (parent : Nat)
  | HardlinkRollback (inode : Nat)
  | HardlinkIncrement (inode : Nat)
  | DecrementInode (inode : Nat)
  | UpdateParent (inode : Nat)
  | UpdateMetadataChangedTime (inode : Nat)
  | Write (inode : Nat)
  | Lock (inode : Nat)
  | Unlock (inode : Nat)
  | Fsync (inode : Nat)
  | Chmod (inode : Nat)
  | Chown (inode : Nat)
  | Truncate (inode : Nat)
  | SetXattr (inode : Nat)
  | RemoveXattr (inode : Nat)
  | Utimens (inode : Nat)
  | Unlink (parent : Nat) (name : String) (context : Nat)
  | Read (inode : Nat) (offset : Nat) (read_size : Nat)
  | ReadRaw (inode : Nat) (required_commit : CommitId) (offset : Nat) (read_size : Nat)
  | Rmdir (parent : Nat) (name : String) (context : Nat)
  | Mkdir (parent : Nat) (name : String) (uid : Nat) (gid : Nat) (mode : Nat)
  | Create (parent : Nat) (name : String) (uid : Nat) (gid : Nat) (mode : Nat) (kind : FileKind)
  | Lookup (parent : Nat) (name : String) (context : Nat)
  | GetXattr (inode : Nat) (key : String) (context : Nat)
  | Hardlink (inode : Nat) (new_parent : Nat) (new_name : String) (context : Nat)
  | Rename (parent : Nat) (name : String) (new_parent : Nat) (new_name : String) (context : Nat)
  | GetAttr (inode : Nat)
  | ListDir (inode : Nat)
  | ListXattrs (inode : Nat)
  | LatestCommit (raft_group : Nat)
  | RaftGroupLeader (raft_group : Nat)
  | RaftMessage (raft_group : Nat) (data : List Nat)
  deriving DecidableEq

/-- One observable collaborator call made by the router, recorded in order. -/
inductive RouterAction where
  | leaderCommit (raft_group : Nat)
  | sync (raft_group : Nat) (index : Nat)
  | storageRead (inode : Nat) (offset : Nat) (read_size : Nat) (pinned : Option CommitId)
  | storageLookup (parent : Nat) (name : String) (context : Nat)
  | storageGetXattr (inode : Nat) (key : String) (context : Nat)
  | storageGetAttr (inode : Nat)
  | storageReadDir (inode : Nat)
  | storageListXattrs (inode : Nat)
  | statfs (raft_group : Nat)
  | getLeader (raft_group : Nat)
  | waitForReady
  | fsckCall
  | checksumCall
  | propose (raft_group : Nat) (bytes : List Nat)
  | txCreate (parent : Nat) (name : String) (uid : Nat) (gid : Nat) (mode : Nat) (kind : FileKind)
  | txUnlink (parent : Nat) (name : String) (context : Nat)
  | txRmdir (parent : Nat) (name : String) (context : Nat)
  | txHardlink (inode : Nat) (new_parent : Nat) (new_name : String) (context : Nat)
  | txRename (parent : Nat) (name : String) (new_parent : Nat) (new_name : String) (context : Nat)
  | latestLocalCommit (raft_group : Nat)
  | raftApply (raft_group : Nat) (message : Nat)
  | forwarded (bytes : List Nat) (meta : RequestMetaInfo)
  deriving DecidableEq

/-- Oracle environment: the behaviour of every collaborator the router
calls.  Per-shard operations are keyed by raft group id; `lookup_by_inode`
is the shard manager's inode-to-group partitioning.  `current_term` is the
shard's true raft term, recorded here only so that one can state that the
router never consults it. -/
structure Env where
  has_raft_group : Nat → Bool
  inode_stored_locally : Nat → Bool
  lookup_by_inode : Nat → Nat
  all_groups : List Nat
  get_leader : Nat → Except ErrorCode Nat
  get_latest_commit_from_leader : Nat → Except ErrorCode Nat
  sync : Nat → Nat → Except ErrorCode Unit
  get_latest_local_commit : Nat → Nat
  propose_raw : Nat → List Nat → Except ErrorCode RkyvGenericResponse
  apply_messages : Nat → Nat → Except Unit Unit
  statfs : Nat → RkyvGenericResponse
  read : Nat → Nat → Nat → CommitId → Except ErrorCode RkyvGenericResponse
  read_raw : Nat → Nat → Nat → Except ErrorCode RkyvGenericResponse
  lookup : Nat → String → Nat → Except ErrorCode RkyvGenericResponse
  get_xattr : Nat → String → Nat → Except ErrorCode RkyvGenericResponse
  getattr : Nat → Except ErrorCode RkyvGenericResponse
  readdir : Nat → Except ErrorCode RkyvGenericResponse
  list_xattrs : Nat → Except ErrorCode RkyvGenericResponse
  fsck : Except ErrorCode RkyvGenericResponse
  checksum : Except ErrorCode RkyvGenericResponse
  wait_for_ready : Except Unit Unit
  forward_raw_request : List Nat → RequestMetaInfo → Except Unit (List Nat)
  create_transaction : Nat → String → Nat → Nat → Nat → FileKind → Except ErrorCode RkyvGenericResponse
  unlink_transaction : Nat → String → Nat → Except ErrorCode RkyvGenericResponse
  rmdir_transaction : Nat → String → Nat → Except ErrorCode RkyvGenericResponse
  hardlink_transaction : Nat → Nat → String → Nat → Except ErrorCode RkyvGenericResponse
  rename_transaction : Nat → String → Nat → String → Nat → Except ErrorCode RkyvGenericResponse
  decode : List Nat → Option RkyvRequest
  meta_info : RkyvRequest → RequestMetaInfo
  encode : RkyvGenericResponse → List Nat
  parse_raft_message : List Nat → Option Nat
  current_term : Nat → Nat

/-- Outcome of a router computation: a value, a propagated `ErrorCode`
(the `Err` side of the Rust `Result`), or a Rust panic. -/
inductive Outcome (α : Type) where
  | diverged
  | fail (e : ErrorCode)
  | ok (a : α)
  deriving DecidableEq

/-- Router computations: state-pass the ordered trace of collaborator
calls, short-circuiting on errors and panics. -/
abbrev RouterM (α : Type) : Type := List RouterAction → Outcome α × List RouterAction

def rpure {α : Type} (a : α) : RouterM α := fun tr => (Outcome.ok a, tr)

def rbind {α β : Type} (x : RouterM α) (f : α → RouterM β) : RouterM β := fun tr =>
  match x tr with
  | (Outcome.ok a, tr1) => f a tr1
  | (Outcome.fail e, tr1) => (Outcome.fail e, tr1)
  | (Outcome.diverged, tr1) => (Outcome.diverged, tr1)

/-- A Rust panic inside a router computation. -/
def diverge {α : Type} : RouterM α := fun tr => (Outcome.diverged, tr)

def outcomeOf {α : Type} : Except ErrorCode α → Outcome α
  | Except.ok a => Outcome.ok a
  | Except.error e => Outcome.fail e

def callLeaderCommit (env : Env) (g : Nat) : RouterM Nat := fun tr =>
  (outcomeOf (env.get_latest_commit_from_leader g), tr ++ [RouterAction.leaderCommit g])

def callSync (env : Env) (g idx : Nat) : RouterM Unit := fun tr =>
  (outcomeOf (env.sync g idx), tr ++ [RouterAction.sync g idx])

def callRead (env : Env) (inode offset read_size : Nat) (commit : CommitId) :
    RouterM RkyvGenericResponse := fun tr =>
  (outcomeOf (env.read inode offset read_size commit),
   tr ++ [RouterAction.storageRead inode offset read_size (some commit)])

def callReadRaw (env : Env) (inode offset read_size : Nat) : RouterM RkyvGenericResponse := fun tr =>
  (outcomeOf (env.read_raw inode offset read_size),
   tr ++ [RouterAction.storageRead inode offset read_size none])

def callLookup (env : Env) (parent : Nat) (name : String) (context : Nat) :
    RouterM RkyvGenericResponse := fun tr =>
  (outcomeOf (env.lookup parent name context), tr ++ [RouterAction.storageLookup parent name context])

def callGetXattr (env : Env) (inode : Nat) (key : String) (context : Nat) :
    RouterM RkyvGenericResponse := fun tr =>
  (outcomeOf (env.get_xattr inode key context), tr ++ [RouterAction.storageGetXattr inode key context])

def callGetAttr (env : Env) (inode : Nat) : RouterM RkyvGenericResponse := fun tr =>
  (outcomeOf (env.getattr inode), tr ++ [RouterAction.storageGetAttr inode])

def callReadDir (env : Env) (inode : Nat) : RouterM RkyvGenericResponse := fun tr =>
  (outcomeOf (env.readdir inode), tr ++ [RouterAction.storageReadDir inode])

def callListXattrs (env : Env) (inode : Nat) : RouterM RkyvGenericResponse := fun tr =>
  (outcomeOf (env.list_xattrs inode), tr ++ [RouterAction.storageListXattrs inode])

def callStatfs (env : Env) (g : Nat) : RouterM RkyvGenericResponse := fun tr =>
  (Outcome.ok (env.statfs g), tr ++ [RouterAction.statfs g])

def callGetLeader (env : Env) (g : Nat) : RouterM Nat := fun tr =>
  (outcomeOf (env.get_leader g), tr ++ [RouterAction.getLeader g])

/-- Loop body of the `FilesystemReady` branch: `node.get_leader().await?`
for every locally hosted group, discarding the leader ids. -/
def get_leaders (env : Env) : List Nat → RouterM Unit
  | [] => rpure ()
  | g :: rest => rbind (callGetLeader env g) (fun _ => get_leaders env rest)

/-- Wait for the remote cluster, `map_err`-ed to `Uncategorized`. -/
def callWaitForReady (env : Env) : RouterM Unit := fun tr =>
  (match env.wait_for_ready with
   | Except.ok _ => Outcome.ok ()
   | Except.error _ => Outcome.fail ErrorCode.Uncategorized,
   tr ++ [RouterAction.waitForReady])

def callFsck (env : Env) : RouterM RkyvGenericResponse := fun tr =>
  (outcomeOf env.fsck, tr ++ [RouterAction.fsckCall])

def callChecksum (env : Env) : RouterM RkyvGenericResponse := fun tr =>
  (outcomeOf env.checksum, tr ++ [RouterAction.checksumCall])

def callPropose (env : Env) (g : Nat) (bytes : List Nat) : RouterM RkyvGenericResponse := fun tr =>
  (outcomeOf (env.propose_raw g bytes), tr ++ [RouterAction.propose g bytes])

def callCreateTx (env : Env) (parent : Nat) (name : String) (uid gid mode : Nat)
    (kind : FileKind) : RouterM RkyvGenericResponse := fun tr =>
  (outcomeOf (env.create_transaction parent name uid gid mode kind),
   tr ++ [RouterAction.txCreate parent name uid gid mode kind])

def callUnlinkTx (env : Env) (parent : Nat) (name : String) (context : Nat) :
    RouterM RkyvGenericResponse := fun tr =>
  (outcomeOf (env.unlink_transaction parent name context),
   tr ++ [RouterAction.txUnlink parent name context])

def callRmdirTx (env : Env) (parent : Nat) (name : String) (context : Nat) :
    RouterM RkyvGenericResponse := fun tr =>
  (outcomeOf (env.rmdir_transaction parent name context),
   tr ++ [RouterAction.txRmdir parent name context])

def callHardlinkTx (env : Env) (inode new_parent : Nat) (new_name : String) (context : Nat) :
    RouterM RkyvGenericResponse := fun tr =>
  (outcomeOf (env.hardlink_transaction inode new_parent new_name context),
   tr ++ [RouterAction.txHardlink inode new_parent new_name context])

def callRenameTx (env : Env) (parent : Nat) (name : String) (new_parent : Nat)
    (new_name : String) (context : Nat) : RouterM RkyvGenericResponse := fun tr =>
  (outcomeOf (env.rename_transaction parent name new_parent new_name context),
   tr ++ [RouterAction.txRename parent name new_parent new_name context])

def callLatestLocalCommit (env : Env) (g : Nat) : RouterM Nat := fun tr =>
  (Outcome.ok (env.get_latest_local_commit g), tr ++ [RouterAction.latestLocalCommit g])

/-- An inbound consensus message is applied with `.unwrap()`: a collaborator
failure here is a Rust panic, not an error response. -/
def callApplyMessages (env : Env) (g message : Nat) : RouterM Unit := fun tr =>
  (match env.apply_messages g message with
   | Except.ok _ => Outcome.ok ()
   | Except.error _ => Outcome.diverged,
   tr ++ [RouterAction.raftApply g message])

/-- Modelled from the spec: `sync_with_leader` lives in
src/storage/raft_node.rs, which is not among the provided sources.  Per the
spec's Read Consistency Protocol (steps 1 and 2) it asks the shard leader
for its current commit point and then blocks until the local replica has
applied its log up to at least that point. -/
def sync_with_leader (env : Env) (g : Nat) : RouterM Unit :=
  rbind (callLeaderCommit env g) (fun latest_commit =>
    rbind (callSync env g latest_commit) (fun _ => rpure ()))

/-- to_error_response: encode `RkyvGenericResponse::ErrorOccurred(code)`. -/
def to_error_response (env : Env) (error_code : ErrorCode) : List Nat :=
  env.encode (RkyvGenericResponse.ErrorOccurred error_code)

/-- can_handle_locally: whether the request can be handled by the local
node or must be forwarded to a different raft group.  `none` models the
Rust panic of `request_meta.inode.unwrap()` when a `RaftGroup` request
carries neither a raft group id nor an inode. -/
def can_handle_locally (request_meta : RequestMetaInfo) (env : Env) : Option Bool :=
  match request_meta.distribution_requirement with
  | DistributionRequirement.Any => some true
  | DistributionRequirement.TransactionCoordinator => some true
  | DistributionRequirement.Node => some true
  | DistributionRequirement.RaftGroup =>
    match request_meta.raft_group with
    | some group => some (env.has_raft_group group)
    | none =>
      match request_meta.inode with
      | some inode => some (env.inode_stored_locally inode)
      | none => none

/-- forward_request: forward the original encoded request together with its
routing metadata; a forwarding failure becomes a generic uncategorized
error response, with no retry. -/
def forward_request (env : Env) (request : List Nat) (meta : RequestMetaInfo) :
    RouterM (List Nat) := fun tr =>
  (match env.forward_raw_request request meta with
   | Except.ok response => Outcome.ok response
   | Except.error _ => Outcome.ok (to_error_response env ErrorCode.Uncategorized),
   tr ++ [RouterAction.forwarded request meta])

/-- request_router_inner: dispatch a locally handled, already decoded
request.  `aligned` is the original encoded request, passed through
unchanged to `propose_raw`. -/
def request_router_inner (env : Env) (aligned : List Nat) (request : RkyvRequest) :
    RouterM RkyvGenericResponse :=
  match request with
  | RkyvRequest.FilesystemReady =>
    rbind (get_leaders env env.all_groups) (fun _ =>
      rbind (callWaitForReady env) (fun _ => rpure RkyvGenericResponse.Empty))
  | RkyvRequest.FilesystemInformation =>
    match env.all_groups with
    | [] => diverge
    | g :: _ => callStatfs env g
  | RkyvRequest.FilesystemCheck => callFsck env
  | RkyvRequest.FilesystemChecksum => callChecksum env
  | RkyvRequest.CreateInode raft_group => callPropose env raft_group aligned
  | RkyvRequest.CreateLink inode
  | RkyvRequest.RemoveLink inode
  | RkyvRequest.ReplaceLink inode
  | RkyvRequest.HardlinkRollback inode
  | RkyvRequest.HardlinkIncrement inode
  | RkyvRequest.DecrementInode inode
  | RkyvRequest.UpdateParent inode
  | RkyvRequest.UpdateMetadataChangedTime inode =>
    callPropose env (env.lookup_by_inode inode) aligned
  | RkyvRequest.Write inode
  | RkyvRequest.Lock inode
  | RkyvRequest.Unlock inode
  | RkyvRequest.Fsync inode
  | RkyvRequest.Chmod inode
  | RkyvRequest.Chown inode
  | RkyvRequest.Truncate inode
  | RkyvRequest.SetXattr inode
  | RkyvRequest.RemoveXattr inode
  | RkyvRequest.Utimens inode =>
    callPropose env (env.lookup_by_inode inode) aligned
  | RkyvRequest.Unlink parent name context => callUnlinkTx env parent name context
  | RkyvRequest.Read inode offset read_size =>
    rbind (callLeaderCommit env (env.lookup_by_inode inode)) (fun latest_commit =>
      rbind (callSync env (env.lookup_by_inode inode) latest_commit) (fun _ =>
        callRead env inode offset read_size (CommitId.new 0 latest_commit)))
  | RkyvRequest.ReadRaw inode required_commit offset read_size =>
    rbind (callSync env (env.lookup_by_inode inode) required_commit.index) (fun _ =>
      callReadRaw env inode offset read_size)
  | RkyvRequest.Rmdir parent name context => callRmdirTx env parent name context
  | RkyvRequest.Mkdir parent name uid gid mode =>
    callCreateTx env parent name uid gid mode FileKind.Directory
  | RkyvRequest.Create parent name uid gid mode kind =>
    callCreateTx env parent name uid gid mode kind
  | RkyvRequest.Lookup parent name context =>
    rbind (sync_with_leader env (env.lookup_by_inode parent)) (fun _ =>
      callLookup env parent name context)
  | RkyvRequest.GetXattr inode key context =>
    rbind (sync_with_leader env (env.lookup_by_inode inode)) (fun _ =>
      callGetXattr env inode key context)
  | RkyvRequest.Hardlink inode new_parent new_name context =>
    callHardlinkTx env inode new_parent new_name context
  | RkyvRequest.Rename parent name new_parent new_name context =>
    callRenameTx env parent name new_parent new_name context
  | RkyvRequest.GetAttr inode =>
    rbind (sync_with_leader env (env.lookup_by_inode inode)) (fun _ => callGetAttr env inode)
  | RkyvRequest.ListDir inode =>
    rbind (sync_with_leader env (env.lookup_by_inode inode)) (fun _ => callReadDir env inode)
  | RkyvRequest.ListXattrs inode =>
    rbind (sync_with_leader env (env.lookup_by_inode inode)) (fun _ => callListXattrs env inode)
  | RkyvRequest.LatestCommit raft_group =>
    rbind (callLatestLocalCommit env raft_group) (fun index =>
      rpure (RkyvGenericResponse.LatestCommit 0 index))
  | RkyvRequest.RaftGroupLeader raft_group =>
    rbind (callGetLeader env raft_group) (fun leader =>
      rpure (RkyvGenericResponse.NodeId leader))
  | RkyvRequest.RaftMessage raft_group data =>
    match env.parse_raft_message data with
    | none => diverge
    | some message =>
      rbind (callApplyMessages env raft_group message) (fun _ =>
        rpure RkyvGenericResponse.Empty)

/-- request_router: decode the envelope (a malformed envelope panics),
extract routing metadata, forward when the request cannot be handled
locally, otherwise dispatch to `request_router_inner` and encode its
response or error into the response envelope. -/
def request_router (env : Env) (aligned : List Nat) : Outcome (List Nat) × List RouterAction :=
  match env.decode aligned with
  | none => (Outcome.diverged, [])
  | some request =>
    let meta := env.meta_info request
    match can_handle_locally meta env with
    | none => (Outcome.diverged, [])
    | some false => forward_request env aligned meta []
    | some true =>
      match request_router_inner env aligned request [] with
      | (Outcome.ok rkyv_response, tr) => (Outcome.ok (env.encode rkyv_response), tr)
      | (Outcome.fail error_code, tr) => (Outcome.ok (to_error_response env error_code), tr)
      | (Outcome.diverged, tr) => (Outcome.diverged, tr)

/-- Concrete environment used to evaluate the router model on explicit
inputs: groups 0..3 are hosted locally, inodes below 100 are stored
locally, partitioning is modulo 4, and every collaborator succeeds with a
distinguishable payload. -/
def E0 : Env := {
  has_raft_group := fun g => decide (g < 4),
  inode_stored_locally := fun i => decide (i < 100),
  lookup_by_inode := fun i => i % 4,
  all_groups := [0, 1],
  get_leader := fun _ => Except.ok 7,
  get_latest_commit_from_leader := fun _ => Except.ok 3,
  sync := fun _ _ => Except.ok (),
  get_latest_local_commit := fun g => g + 10,
  propose_raw := fun g bytes => Except.ok (RkyvGenericResponse.Payload (g + bytes.length)),
  apply_messages := fun _ _ => Except.ok (),
  statfs := fun g => RkyvGenericResponse.Payload g,
  read := fun i o s c => Except.ok (RkyvGenericResponse.Payload (i + o + s + c.term * 1000 + c.index)),
  read_raw := fun i o s => Except.ok (RkyvGenericResponse.Payload (i + o + s)),
  lookup := fun p _ c => Except.ok (RkyvGenericResponse.Payload (p + c)),
  get_xattr := fun i _ c => Except.ok (RkyvGenericResponse.Payload (i + c + 1)),
  getattr := fun i => Except.ok (RkyvGenericResponse.Payload (i + 2)),
  readdir := fun i => Except.ok (RkyvGenericResponse.Payload (i + 3)),
  list_xattrs := fun i => Except.ok (RkyvGenericResponse.Payload (i + 4)),
  fsck := Except.ok RkyvGenericResponse.Empty,
  checksum := Except.ok RkyvGenericResponse.Empty,
  wait_for_ready := Except.ok (),
  forward_raw_request := fun bytes _ => Except.ok (0 :: bytes),
  create_transaction := fun p _ u g m _ => Except.ok (RkyvGenericResponse.Payload (p + u + g + m)),
  unlink_transaction := fun p _ c => Except.ok (RkyvGenericResponse.Payload (p + c)),
  rmdir_transaction := fun p _ c => Except.ok (RkyvGenericResponse.Payload (p + c + 1)),
  hardlink_transaction := fun i p _ c => Except.ok (RkyvGenericResponse.Payload (i + p + c)),
  rename_transaction := fun p _ q _ c => Except.ok (RkyvGenericResponse.Payload (p + q + c)),
  decode := fun _ => some RkyvRequest.FilesystemReady,
  meta_info := fun _ => ⟨DistributionRequirement.Any, none, none⟩,
  encode := fun _ => [42],
  parse_raft_message := fun d => some d.length,
  current_term := fun g => g + 5 }

/-- Environment in which applying an inbound raft message fails. -/
def EC2 : Env := { E0 with
  decode := fun _ => some (RkyvRequest.RaftMessage 0 [5]),
  apply_messages := fun _ _ => Except.error () }

/-- Environment whose decoded request targets an inode (200) that is not
stored locally, so the request must be forwarded. -/
def EC5 : Env := { E0 with
  decode := fun _ => some (RkyvRequest.Write 200),
  meta_info := fun _ => ⟨DistributionRequirement.RaftGroup, none, some 200⟩ }

/-- Like `EC5`, but forwarding to the remote raft client fails. -/
def EC6 : Env := { EC5 with
  forward_raw_request := fun _ _ => Except.error () }

/-- Environment whose decoded request carries a `RaftGroup` distribution
requirement with neither a raft group id nor an inode. -/
def EC9 : Env := { E0 with
  decode := fun _ => some (RkyvRequest.Write 1),
  meta_info := fun _ => ⟨DistributionRequirement.RaftGroup, none, none⟩ }

theorem outcomeOf_ne_diverged {α : Type} (e : Except ErrorCode α) :
    outcomeOf e ≠ Outcome.diverged := by
  cases e <;> simp [outcomeOf]

theorem rbind_ne_diverged {α β : Type} {x : RouterM α} {f : α → RouterM β}
    {tr : List RouterAction} (hx : (x tr).1 ≠ Outcome.diverged)
    (hf : ∀ a tr2, (f a tr2).1 ≠ Outcome.diverged) :
    (rbind x f tr).1 ≠ Outcome.diverged := by
  unfold rbind
  rcases hxe : x tr with ⟨o, tr1⟩
  rw [hxe] at hx
  cases o with
  | ok a => exact hf a tr1
  | fail e => simp
  | diverged => exact absurd rfl hx

theorem get_leaders_ne_diverged (env : Env) (l : List Nat) (tr : List RouterAction) :
    (get_leaders env l tr).1 ≠ Outcome.diverged := by
  induction l generalizing tr with
  | nil => simp [get_leaders, rpure]
  | cons g rest ih =>
    simp only [get_leaders]
    exact rbind_ne_diverged (outcomeOf_ne_diverged _) (fun a tr2 => ih tr2)

theorem get_leaders_eq (env : Env) (l : List Nat)
    (h : ∀ g ∈ l, ∃ n, env.get_leader g = Except.ok n) (tr : List RouterAction) :
    get_leaders env l tr = (Outcome.ok (), tr ++ l.map RouterAction.getLeader) := by
  induction l generalizing tr with
  | nil => simp [get_leaders, rpure]
  | cons g rest ih =>
    obtain ⟨n, hn⟩ := h g (List.mem_cons_self g rest)
    have hrest : ∀ g2 ∈ rest, ∃ n, env.get_leader g2 = Except.ok n :=
      fun g2 hg2 => h g2 (List.mem_cons_of_mem g hg2)
    simp [get_leaders, rbind, callGetLeader, hn, outcomeOf, ih hrest]

/-- Claim C3: `can_handle_locally` returns true for `Any`,
`TransactionCoordinator` and `Node`; for `RaftGroup` with an explicit raft
group id it is true iff the local node hosts that group; for `RaftGroup`
with only an inode it is true iff the local node hosts the shard owning
that inode. -/
theorem c3_locality (env : Env) (g i : Nat) (rg oi : Option Nat) :
    can_handle_locally ⟨DistributionRequirement.Any, rg, oi⟩ env = some true ∧
    can_handle_locally ⟨DistributionRequirement.TransactionCoordinator, rg, oi⟩ env = some true ∧
    can_handle_locally ⟨DistributionRequirement.Node, rg, oi⟩ env = some true ∧
    (can_handle_locally ⟨DistributionRequirement.RaftGroup, some g, oi⟩ env = some true ↔
      env.has_raft_group g = true) ∧
    (can_handle_locally ⟨DistributionRequirement.RaftGroup, none, some i⟩ env = some true ↔
      env.inode_stored_locally i = true) := by
  refine ⟨rfl, rfl, rfl, ?_, ?_⟩ <;> simp [can_handle_locally]

/-- Claim C4: the router dispatches each locally handled operation to its
specified path — internal primitives are proposed to the single shard they
target (by explicit raft group id for CreateInode, by owning-inode lookup
for the rest), single-shard client mutations are proposed to the shard
owning the named inode, and structural mutations are delegated to the
transaction coordinator. -/
theorem c4_dispatch (env : Env) (aligned : List Nat) (g inode parent new_parent : Nat)
    (name new_name : String) (uid gid mode context : Nat) (kind : FileKind) :
    request_router_inner env aligned (RkyvRequest.CreateInode g) [] =
      (outcomeOf (env.propose_raw g aligned), [RouterAction.propose g aligned]) ∧
    request_router_inner env aligned (RkyvRequest.CreateLink inode) [] =
      (outcomeOf (env.propose_raw (env.lookup_by_inode inode) aligned),
       [RouterAction.propose (env.lookup_by_inode inode) aligned]) ∧
    request_router_inner env aligned (RkyvRequest.RemoveLink inode) [] =
      (outcomeOf (env.propose_raw (env.lookup_by_inode inode) aligned),
       [RouterAction.propose (env.lookup_by_inode inode) aligned]) ∧
    request_router_inner env aligned (RkyvRequest.ReplaceLink inode) [] =
      (outcomeOf (env.propose_raw (env.lookup_by_inode inode) aligned),
       [RouterAction.propose (env.lookup_by_inode inode) aligned]) ∧
    request_router_inner env aligned (RkyvRequest.HardlinkRollback inode) [] =
      (outcomeOf (env.propose_raw (env.lookup_by_inode inode) aligned),
       [RouterAction.propose (env.lookup_by_inode inode) aligned]) ∧
    request_router_inner env aligned (RkyvRequest.HardlinkIncrement inode) [] =
      (outcomeOf (env.propose_raw (env.lookup_by_inode inode) aligned),
       [RouterAction.propose (env.lookup_by_inode inode) aligned]) ∧
    request_router_inner env aligned (RkyvRequest.DecrementInode inode) [] =
      (outcomeOf (env.propose_raw (env.lookup_by_inode inode) aligned),
       [RouterAction.propose (env.lookup_by_inode inode) aligned]) ∧
    request_router_inner env aligned (RkyvRequest.UpdateParent inode) [] =
      (outcomeOf (env.propose_raw (env.lookup_by_inode inode) aligned),
       [RouterAction.propose (env.lookup_by_inode inode) aligned]) ∧
    request_router_inner env aligned (RkyvRequest.UpdateMetadataChangedTime inode) [] =
      (outcomeOf (env.propose_raw (env.lookup_by_inode inode) aligned),
       [RouterAction.propose (env.lookup_by_inode inode) aligned]) ∧
    request_router_inner env aligned (RkyvRequest.Write inode) [] =
      (outcomeOf (env.propose_raw (env.lookup_by_inode inode) aligned),
       [RouterAction.propose (env.lookup_by_inode inode) aligned]) ∧
    request_router_inner env aligned (RkyvRequest.Lock inode) [] =
      (outcomeOf (env.propose_raw (env.lookup_by_inode inode) aligned),
       [RouterAction.propose (env.lookup_by_inode inode) aligned]) ∧
    request_router_inner env aligned (RkyvRequest.Unlock inode) [] =
      (outcomeOf (env.propose_raw (env.lookup_by_inode inode) aligned),
       [RouterAction.propose (env.lookup_by_inode inode) aligned]) ∧
    request_router_inner env aligned (RkyvRequest.Fsync inode) [] =
      (outcomeOf (env.propose_raw (env.lookup_by_inode inode) aligned),
       [RouterAction.propose (env.lookup_by_inode inode) aligned]) ∧
    request_router_inner env aligned (RkyvRequest.Chmod inode) [] =
      (outcomeOf (env.propose_raw (env.lookup_by_inode inode) aligned),
       [RouterAction.propose (env.lookup_by_inode inode) aligned]) ∧
    request_router_inner env aligned (RkyvRequest.Chown inode) [] =
      (outcomeOf (env.propose_raw (env.lookup_by_inode inode) aligned),
       [RouterAction.propose (env.lookup_by_inode inode) aligned]) ∧
    request_router_inner env aligned (RkyvRequest.Truncate inode) [] =
      (outcomeOf (env.propose_raw (env.lookup_by_inode inode) aligned),
       [RouterAction.propose (env.lookup_by_inode inode) aligned]) ∧
    request_router_inner env aligned (RkyvRequest.SetXattr inode) [] =
      (outcomeOf (env.propose_raw (env.lookup_by_inode inode) aligned),
       [RouterAction.propose (env.lookup_by_inode inode) aligned]) ∧
    request_router_inner env aligned (RkyvRequest.RemoveXattr inode) [] =
      (outcomeOf (env.propose_raw (env.lookup_by_inode inode) aligned),
       [RouterAction.propose (env.lookup_by_inode inode) aligned]) ∧
    request_router_inner env aligned (RkyvRequest.Utimens inode) [] =
      (outcomeOf (env.propose_raw (env.lookup_by_inode inode) aligned),
       [RouterAction.propose (env.lookup_by_inode inode) aligned]) ∧
    request_router_inner env aligned (RkyvRequest.Create parent name uid gid mode kind) [] =
      (outcomeOf (env.create_transaction parent name uid gid mode kind),
       [RouterAction.txCreate parent name uid gid mode kind]) ∧
    request_router_inner env aligned (RkyvRequest.Mkdir parent name uid gid mode) [] =
      (outcomeOf (env.create_transaction parent name uid gid mode FileKind.Directory),
       [RouterAction.txCreate parent name uid gid mode FileKind.Directory]) ∧
    request_router_inner env aligned (RkyvRequest.Unlink parent name context) [] =
      (outcomeOf (env.unlink_transaction parent name context),
       [RouterAction.txUnlink parent name context]) ∧
    request_router_inner env aligned (RkyvRequest.Rmdir parent name context) [] =
      (outcomeOf (env.rmdir_transaction parent name context),
       [RouterAction.txRmdir parent name context]) ∧
    request_router_inner env aligned
        (RkyvRequest.Rename parent name new_parent new_name context) [] =
      (outcomeOf (env.rename_transaction parent name new_parent new_name context),
       [RouterAction.txRename parent name new_parent new_name context]) ∧
    request_router_inner env aligned
        (RkyvRequest.Hardlink inode new_parent new_name context) [] =
      (outcomeOf (env.hardlink_transaction inode new_parent new_name context),
       [RouterAction.txHardlink inode new_parent new_name context]) :=
  ⟨rfl, rfl, rfl, rfl, rfl, rfl, rfl, rfl, rfl, rfl, rfl, rfl, rfl, rfl, rfl, rfl, rfl,
   rfl, rfl, rfl, rfl, rfl, rfl, rfl, rfl⟩

/-- Claim C9: a `RaftGroup` request whose routing metadata carries neither
an explicit raft group id nor an inode makes `can_handle_locally` panic
(`inode.unwrap()` on `None`), so the router diverges without producing any
response; such metadata is an unstated precondition of the router. -/
theorem c9_missing_routing_meta (env : Env) (aligned : List Nat) (request : RkyvRequest)
    (hdec : env.decode aligned = some request)
    (hmeta : env.meta_info request = ⟨DistributionRequirement.RaftGroup, none, none⟩) :
    can_handle_locally (env.meta_info request) env = none ∧
    request_router env aligned = (Outcome.diverged, []) := by
  have h1 : can_handle_locally (env.meta_info request) env = none := by
    rw [hmeta]
    rfl
  exact ⟨h1, by simp [request_router, hdec, h1]⟩

/-- Witness for C9 at a concrete environment and request. -/
theorem c9_missing_routing_meta_witness :
    can_handle_locally (EC9.meta_info (RkyvRequest.Write 1)) EC9 = none ∧
    request_router EC9 [0] = (Outcome.diverged, []) :=
  c9_missing_routing_meta EC9 [0] (RkyvRequest.Write 1) rfl rfl

/-- Claim C1: for a locally handled Read the router first obtains the
current commit point from the owning shard's leader, then waits until the
local replica of that shard has applied its log to at least that commit
point, and only then executes the read against the storage engine pinned
to the observed commit point; the metadata queries Lookup, GetAttr,
ListDir, ListXattrs and GetXattr likewise synchronize with the shard
leader (via `sync_with_leader`) before querying the storage engine. -/
theorem c1_read_consistency (env : Env) (aligned : List Nat)
    (inode offset read_size : Nat) (name key : String) (context c : Nat)
    (hld : env.get_latest_commit_from_leader (env.lookup_by_inode inode) = Except.ok c)
    (hsync : env.sync (env.lookup_by_inode inode) c = Except.ok ()) :
    request_router_inner env aligned (RkyvRequest.Read inode offset read_size) [] =
      (outcomeOf (env.read inode offset read_size (CommitId.new 0 c)),
       [RouterAction.leaderCommit (env.lookup_by_inode inode),
        RouterAction.sync (env.lookup_by_inode inode) c,
        RouterAction.storageRead inode offset read_size (some (CommitId.new 0 c))]) ∧
    request_router_inner env aligned (RkyvRequest.Lookup inode name context) [] =
      (outcomeOf (env.lookup inode name context),
       [RouterAction.leaderCommit (env.lookup_by_inode inode),
        RouterAction.sync (env.lookup_by_inode inode) c,
        RouterAction.storageLookup inode name context]) ∧
    request_router_inner env aligned (RkyvRequest.GetAttr inode) [] =
      (outcomeOf (env.getattr inode),
       [RouterAction.leaderCommit (env.lookup_by_inode inode),
        RouterAction.sync (env.lookup_by_inode inode) c,
        RouterAction.storageGetAttr inode]) ∧
    request_router_inner env aligned (RkyvRequest.ListDir inode) [] =
      (outcomeOf (env.readdir inode),
       [RouterAction.leaderCommit (env.lookup_by_inode inode),
        RouterAction.sync (env.lookup_by_inode inode) c,
        RouterAction.storageReadDir inode]) ∧
    request_router_inner env aligned (RkyvRequest.ListXattrs inode) [] =
      (outcomeOf (env.list_xattrs inode),
       [RouterAction.leaderCommit (env.lookup_by_inode inode),
        RouterAction.sync (env.lookup_by_inode inode) c,
        RouterAction.storageListXattrs inode]) ∧
    request_router_inner env aligned (RkyvRequest.GetXattr inode key context) [] =
      (outcomeOf (env.get_xattr inode key context),
       [RouterAction.leaderCommit (env.lookup_by_inode inode),
        RouterAction.sync (env.lookup_by_inode inode) c,
        RouterAction.storageGetXattr inode key context]) := by
  refine ⟨?_, ?_, ?_, ?_, ?_, ?_⟩ <;>
    simp [request_router_inner, sync_with_leader, rbind, rpure, callLeaderCommit, callSync,
      callRead, callLookup, callGetAttr, callReadDir, callListXattrs, callGetXattr,
      hld, hsync, outcomeOf]

/-- Witness for C1 at a concrete environment, inode 5 (owned by raft
group 1), leader commit point 3. -/
theorem c1_read_consistency_witness :
    request_router_inner E0 [0] (RkyvRequest.Read 5 0 10) [] =
      (outcomeOf (E0.read 5 0 10 (CommitId.new 0 3)),
       [RouterAction.leaderCommit 1, RouterAction.sync 1 3,
        RouterAction.storageRead 5 0 10 (some (CommitId.new 0 3))]) ∧
    request_router_inner E0 [0] (RkyvRequest.Lookup 5 ("f") 2) [] =
      (outcomeOf (E0.lookup 5 ("f") 2),
       [RouterAction.leaderCommit 1, RouterAction.sync 1 3,
        RouterAction.storageLookup 5 ("f") 2]) ∧
    request_router_inner E0 [0] (RkyvRequest.GetAttr 5) [] =
      (outcomeOf (E0.getattr 5),
       [RouterAction.leaderCommit 1, RouterAction.sync 1 3,
        RouterAction.storageGetAttr 5]) ∧
    request_router_inner E0 [0] (RkyvRequest.ListDir 5) [] =
      (outcomeOf (E0.readdir 5),
       [RouterAction.leaderCommit 1, RouterAction.sync 1 3,
        RouterAction.storageReadDir 5]) ∧
    request_router_inner E0 [0] (RkyvRequest.ListXattrs 5) [] =
      (outcomeOf (E0.list_xattrs 5),
       [RouterAction.leaderCommit 1, RouterAction.sync 1 3,
        RouterAction.storageListXattrs 5]) ∧
    request_router_inner E0 [0] (RkyvRequest.GetXattr 5 ("k") 2) [] =
      (outcomeOf (E0.get_xattr 5 ("k") 2),
       [RouterAction.leaderCommit 1, RouterAction.sync 1 3,
        RouterAction.storageGetXattr 5 ("k") 2]) :=
  c1_read_consistency E0 [0] 5 0 10 ("f") ("k") 2 3 rfl rfl

/-- Counterexample to claim C8 as stated: at a concrete input, the ReadRaw
read against the storage engine is not pinned to the caller-specified
commit point (2, 4); the storage call carries no commit point at all. -/
theorem c8_counterexample :
    request_router_inner E0 [0] (RkyvRequest.ReadRaw 5 (CommitId.new 2 4) 0 10) [] =
      (Outcome.ok (RkyvGenericResponse.Payload 15),
       [RouterAction.sync 1 4, RouterAction.storageRead 5 0 10 none]) ∧
    RouterAction.storageRead 5 0 10 (some (CommitId.new 2 4)) ∉
      [RouterAction.sync 1 4, RouterAction.storageRead 5 0 10 none] :=
  ⟨rfl, by decide⟩

/-- Claim C8 (amended): for a ReadRaw request carrying a caller-specified
exact commit point, the router skips the leader commit-point lookup, waits
until the local replica has applied its log to at least the caller-supplied
commit index, and then executes `read_raw` against the storage engine
without passing a commit point — the read is not explicitly pinned. -/
theorem c8_read_raw (env : Env) (aligned : List Nat) (inode offset read_size : Nat)
    (required_commit : CommitId)
    (hsync : env.sync (env.lookup_by_inode inode) required_commit.index = Except.ok ()) :
    request_router_inner env aligned
        (RkyvRequest.ReadRaw inode required_commit offset read_size) [] =
      (outcomeOf (env.read_raw inode offset read_size),
       [RouterAction.sync (env.lookup_by_inode inode) required_commit.index,
        RouterAction.storageRead inode offset read_size none]) := by
  simp [request_router_inner, rbind, callSync, callReadRaw, hsync, outcomeOf]

/-- Witness for the amended C8 at a concrete environment and input. -/
theorem c8_read_raw_witness :
    request_router_inner E0 [0] (RkyvRequest.ReadRaw 5 (CommitId.new 2 4) 0 10) [] =
      (outcomeOf (E0.read_raw 5 0 10),
       [RouterAction.sync 1 4, RouterAction.storageRead 5 0 10 none]) :=
  c8_read_raw E0 [0] 5 0 10 (CommitId.new 2 4) rfl

theorem get_leaders_term_irrel (env : Env) (t : Nat) (l : List Nat) :
    get_leaders { env with current_term := fun _ => t } l = get_leaders env l := by
  induction l with
  | nil => rfl
  | cons g rest ih =>
    simp only [get_leaders, ih]
    rfl

theorem inner_term_irrel (env : Env) (t : Nat) (aligned : List Nat) (request : RkyvRequest) :
    request_router_inner { env with current_term := fun _ => t } aligned request =
      request_router_inner env aligned request := by
  cases request <;>
    first
      | rfl
      | (simp only [request_router_inner, get_leaders_term_irrel]; rfl)

theorem router_term_irrel (env : Env) (t : Nat) (aligned : List Nat) :
    request_router { env with current_term := fun _ => t } aligned =
      request_router env aligned := by
  unfold request_router
  have hd : ({ env with current_term := fun _ => t } : Env).decode aligned
      = env.decode aligned := rfl
  rw [hd]
  cases env.decode aligned with
  | none => rfl
  | some request =>
    dsimp only
    rw [inner_term_irrel env t aligned request]
    rfl

/-- Claim C10: every commit point the router itself constructs carries
term 0 — a Read is pinned to `CommitId.new 0 latest_commit` and a
LatestCommit request is answered with term 0 paired with the latest local
commit index — and the router's output does not depend on the shard's true
raft term. -/
theorem c10_term_zero (env : Env) (aligned : List Nat)
    (inode offset read_size raft_group c t : Nat)
    (hld : env.get_latest_commit_from_leader (env.lookup_by_inode inode) = Except.ok c)
    (hsync : env.sync (env.lookup_by_inode inode) c = Except.ok ()) :
    request_router_inner env aligned (RkyvRequest.Read inode offset read_size) [] =
      (outcomeOf (env.read inode offset read_size (CommitId.new 0 c)),
       [RouterAction.leaderCommit (env.lookup_by_inode inode),
        RouterAction.sync (env.lookup_by_inode inode) c,
        RouterAction.storageRead inode offset read_size (some (CommitId.new 0 c))]) ∧
    request_router_inner env aligned (RkyvRequest.LatestCommit raft_group) [] =
      (Outcome.ok (RkyvGenericResponse.LatestCommit 0 (env.get_latest_local_commit raft_group)),
       [RouterAction.latestLocalCommit raft_group]) ∧
    request_router { env with current_term := fun _ => t } aligned =
      request_router env aligned := by
  refine ⟨?_, rfl, router_term_irrel env t aligned⟩
  simp [request_router_inner, rbind, callLeaderCommit, callSync, callRead,
    hld, hsync, outcomeOf]

/-- Witness for C10 at a concrete environment and inputs. -/
theorem c10_term_zero_witness :
    request_router_inner E0 [0] (RkyvRequest.Read 5 0 10) [] =
      (outcomeOf (E0.read 5 0 10 (CommitId.new 0 3)),
       [RouterAction.leaderCommit 1, RouterAction.sync 1 3,
        RouterAction.storageRead 5 0 10 (some (CommitId.new 0 3))]) ∧
    request_router_inner E0 [0] (RkyvRequest.LatestCommit 2) [] =
      (Outcome.ok (RkyvGenericResponse.LatestCommit 0 (E0.get_latest_local_commit 2)),
       [RouterAction.latestLocalCommit 2]) ∧
    request_router { E0 with current_term := fun _ => 9 } [0] = request_router E0 [0] :=
  c10_term_zero E0 [0] 5 0 10 2 3 9 rfl rfl

/-- Claim C5: a request that cannot be handled locally is forwarded with
the original undecoded request bytes, byte-for-byte identical, together
with the extracted routing metadata, and the remote response is returned
unmodified. -/
theorem c5_forward_unmodified (env : Env) (aligned response : List Nat)
    (request : RkyvRequest) (hdec : env.decode aligned = some request)
    (hlocal : can_handle_locally (env.meta_info request) env = some false)
    (hfwd : env.forward_raw_request aligned (env.meta_info request) = Except.ok response) :
    request_router env aligned =
      (Outcome.ok response, [RouterAction.forwarded aligned (env.meta_info request)]) := by
  simp [request_router, hdec, hlocal, forward_request, hfwd]

/-- Witness for C5: inode 200 is not hosted locally, so the encoded
request [7] is forwarded as-is and the remote response [0, 7] is returned
unmodified. -/
theorem c5_forward_unmodified_witness :
    request_router EC5 [7] =
      (Outcome.ok [0, 7],
       [RouterAction.forwarded [7]
          ⟨DistributionRequirement.RaftGroup, none, some 200⟩]) :=
  c5_forward_unmodified EC5 [7] [0, 7] (RkyvRequest.Write 200) rfl rfl rfl

/-- Claim C6: when forwarding fails, the router performs no retry at this
layer (exactly one forward call appears in the trace) and returns a
generic uncategorized error to the original caller. -/
theorem c6_forward_failure (env : Env) (aligned : List Nat) (request : RkyvRequest)
    (hdec : env.decode aligned = some request)
    (hlocal : can_handle_locally (env.meta_info request) env = some false)
    (hfwd : env.forward_raw_request aligned (env.meta_info request) = Except.error ()) :
    request_router env aligned =
      (Outcome.ok (to_error_response env ErrorCode.Uncategorized),
       [RouterAction.forwarded aligned (env.meta_info request)]) := by
  simp [request_router, hdec, hlocal, forward_request, hfwd]

/-- Witness for C6: forwarding the encoded request [7] fails and the
caller receives the encoded uncategorized error. -/
theorem c6_forward_failure_witness :
    request_router EC6 [7] =
      (Outcome.ok (to_error_response EC6 ErrorCode.Uncategorized),
       [RouterAction.forwarded [7]
          ⟨DistributionRequirement.RaftGroup, none, some 200⟩]) :=
  c6_forward_failure EC6 [7] (RkyvRequest.Write 200) rfl rfl rfl

/-- Counterexample to claim C7 as stated: with two locally hosted shards
(raft groups 0 and 1), the filesystem-information response is taken from
the storage engine of the first shard only — the trace contains no leader
query for either shard and never consults shard 1, whose statfs payload
differs. -/
theorem c7_counterexample :
    E0.all_groups = [0, 1] ∧
    request_router_inner E0 [3] RkyvRequest.FilesystemInformation [] =
      (Outcome.ok (E0.statfs 0), [RouterAction.statfs 0]) ∧
    RouterAction.getLeader 0 ∉ [RouterAction.statfs 0] ∧
    RouterAction.getLeader 1 ∉ [RouterAction.statfs 0] ∧
    RouterAction.statfs 1 ∉ [RouterAction.statfs 0] ∧
    E0.statfs 0 ≠ E0.statfs 1 :=
  ⟨rfl, rfl, by decide, by decide, by decide, by decide⟩

/-- Claim C7 (amended): readiness is handled locally by querying every
locally hosted shard's leader (and then waiting for remote cluster
readiness); the consistency check and checksum are delegated locally to
the fsck/checksum collaborators over the full local shard registry; the
filesystem-information response is taken from the storage engine of the
first locally hosted shard only, without a leader query. -/
theorem c7_local_shard_queries (env : Env) (aligned : List Nat) (g : Nat) (gs : List Nat)
    (hready : ∀ g2 ∈ env.all_groups, ∃ n, env.get_leader g2 = Except.ok n)
    (hok : env.wait_for_ready = Except.ok ()) :
    request_router_inner env aligned RkyvRequest.FilesystemReady [] =
      (Outcome.ok RkyvGenericResponse.Empty,
       env.all_groups.map RouterAction.getLeader ++ [RouterAction.waitForReady]) ∧
    (env.all_groups = g :: gs →
      request_router_inner env aligned RkyvRequest.FilesystemInformation [] =
        (Outcome.ok (env.statfs g), [RouterAction.statfs g])) ∧
    request_router_inner env aligned RkyvRequest.FilesystemCheck [] =
      (outcomeOf env.fsck, [RouterAction.fsckCall]) ∧
    request_router_inner env aligned RkyvRequest.FilesystemChecksum [] =
      (outcomeOf env.checksum, [RouterAction.checksumCall]) := by
  refine ⟨?_, ?_, rfl, rfl⟩
  · simp [request_router_inner, rbind, get_leaders_eq env env.all_groups hready [],
      callWaitForReady, hok, rpure]
  · intro hg
    simp [request_router_inner, hg, callStatfs]

/-- Witness for the amended C7 at a concrete environment hosting raft
groups 0 and 1. -/
theorem c7_local_shard_queries_witness :
    request_router_inner E0 [0] RkyvRequest.FilesystemReady [] =
      (Outcome.ok RkyvGenericResponse.Empty,
       [RouterAction.getLeader 0, RouterAction.getLeader 1, RouterAction.waitForReady]) ∧
    (E0.all_groups = 0 :: [1] →
      request_router_inner E0 [0] RkyvRequest.FilesystemInformation [] =
        (Outcome.ok (E0.statfs 0), [RouterAction.statfs 0])) ∧
    request_router_inner E0 [0] RkyvRequest.FilesystemCheck [] =
      (outcomeOf E0.fsck, [RouterAction.fsckCall]) ∧
    request_router_inner E0 [0] RkyvRequest.FilesystemChecksum [] =
      (outcomeOf E0.checksum, [RouterAction.checksumCall]) :=
  c7_local_shard_queries E0 [0] 0 [1]
    (fun _ _ => ⟨7, rfl⟩) rfl

theorem inner_not_diverged (env : Env) (aligned : List Nat) (request : RkyvRequest)
    (hinfo : request = RkyvRequest.FilesystemInformation → env.all_groups ≠ [])
    (hraft : ∀ g d, request = RkyvRequest.RaftMessage g d →
      ∃ m, env.parse_raft_message d = some m ∧ env.apply_messages g m = Except.ok ())
    (tr : List RouterAction) :
    (request_router_inner env aligned request tr).1 ≠ Outcome.diverged := by
  cases request with
  | FilesystemReady =>
    simp only [request_router_inner]
    exact rbind_ne_diverged (get_leaders_ne_diverged env env.all_groups tr)
      (fun a tr2 => rbind_ne_diverged
        (by cases h : env.wait_for_ready <;> simp [callWaitForReady, h])
        (fun b tr3 => by simp [rpure]))
  | FilesystemInformation =>
    simp only [request_router_inner]
    rcases hg : env.all_groups with _ | ⟨g, gs⟩
    · exact absurd hg (hinfo rfl)
    · simp [callStatfs]
  | FilesystemCheck =>
    simp only [request_router_inner]
    exact outcomeOf_ne_diverged _
  | FilesystemChecksum =>
    simp only [request_router_inner]
    exact outcomeOf_ne_diverged _
  | CreateInode g =>
    simp only [request_router_inner]
    exact outcomeOf_ne_diverged _
  | CreateLink inode =>
    simp only [request_router_inner]
    exact outcomeOf_ne_diverged _
  | RemoveLink inode =>
    simp only [request_router_inner]
    exact outcomeOf_ne_diverged _
  | ReplaceLink inode =>
    simp only [request_router_inner]
    exact outcomeOf_ne_diverged _
  | HardlinkRollback inode =>
    simp only [request_router_inner]
    exact outcomeOf_ne_diverged _
  | HardlinkIncrement inode =>
    simp only [request_router_inner]
    exact outcomeOf_ne_diverged _
  | DecrementInode inode =>
    simp only [request_router_inner]
    exact outcomeOf_ne_diverged _
  | UpdateParent inode =>
    simp only [request_router_inner]
    exact outcomeOf_ne_diverged _
  | UpdateMetadataChangedTime inode =>
    simp only [request_router_inner]
    exact outcomeOf_ne_diverged _
  | Write inode =>
    simp only [request_router_inner]
    exact outcomeOf_ne_diverged _
  | Lock inode =>
    simp only [request_router_inner]
    exact outcomeOf_ne_diverged _
  | Unlock inode =>
    simp only [request_router_inner]
    exact outcomeOf_ne_diverged _
  | Fsync inode =>
    simp only [request_router_inner]
    exact outcomeOf_ne_diverged _
  | Chmod inode =>
    simp only [request_router_inner]
    exact outcomeOf_ne_diverged _
  | Chown inode =>
    simp only [request_router_inner]
    exact outcomeOf_ne_diverged _
  | Truncate inode =>
    simp only [request_router_inner]
    exact outcomeOf_ne_diverged _
  | SetXattr inode =>
    simp only [request_router_inner]
    exact outcomeOf_ne_diverged _
  | RemoveXattr inode =>
    simp only [request_router_inner]
    exact outcomeOf_ne_diverged _
  | Utimens inode =>
    simp only [request_router_inner]
    exact outcomeOf_ne_diverged _
  | Unlink parent name context =>
    simp only [request_router_inner]
    exact outcomeOf_ne_diverged _
  | Read inode offset read_size =>
    simp only [request_router_inner]
    exact rbind_ne_diverged (outcomeOf_ne_diverged _)
      (fun c tr2 => rbind_ne_diverged (outcomeOf_ne_diverged _)
        (fun u tr3 => outcomeOf_ne_diverged _))
  | ReadRaw inode required_commit offset read_size =>
    simp only [request_router_inner]
    exact rbind_ne_diverged (outcomeOf_ne_diverged _)
      (fun u tr2 => outcomeOf_ne_diverged _)
  | Rmdir parent name context =>
    simp only [request_router_inner]
    exact outcomeOf_ne_diverged _
  | Mkdir parent name uid gid mode =>
    simp only [request_router_inner]
    exact outcomeOf_ne_diverged _
  | Create parent name uid gid mode kind =>
    simp only [request_router_inner]
    exact outcomeOf_ne_diverged _
  | Lookup parent name context =>
    simp only [request_router_inner, sync_with_leader]
    exact rbind_ne_diverged
      (rbind_ne_diverged (outcomeOf_ne_diverged _)
        (fun c tr2 => rbind_ne_diverged (outcomeOf_ne_diverged _)
          (fun u tr3 => by simp [rpure])))
      (fun u tr2 => outcomeOf_ne_diverged _)
  | GetXattr inode key context =>
    simp only [request_router_inner, sync_with_leader]
    exact rbind_ne_diverged
      (rbind_ne_diverged (outcomeOf_ne_diverged _)
        (fun c tr2 => rbind_ne_diverged (outcomeOf_ne_diverged _)
          (fun u tr3 => by simp [rpure])))
      (fun u tr2 => outcomeOf_ne_diverged _)
  | Hardlink inode new_parent new_name context =>
    simp only [request_router_inner]
    exact outcomeOf_ne_diverged _
  | Rename parent name new_parent new_name context =>
    simp only [request_router_inner]
    exact outcomeOf_ne_diverged _
  | GetAttr inode =>
    simp only [request_router_inner, sync_with_leader]
    exact rbind_ne_diverged
      (rbind_ne_diverged (outcomeOf_ne_diverged _)
        (fun c tr2 => rbind_ne_diverged (outcomeOf_ne_diverged _)
          (fun u tr3 => by simp [rpure])))
      (fun u tr2 => outcomeOf_ne_diverged _)
  | ListDir inode =>
    simp only [request_router_inner, sync_with_leader]
    exact rbind_ne_diverged
      (rbind_ne_diverged (outcomeOf_ne_diverged _)
        (fun c tr2 => rbind_ne_diverged (outcomeOf_ne_diverged _)
          (fun u tr3 => by simp [rpure])))
      (fun u tr2 => outcomeOf_ne_diverged _)
  | ListXattrs inode =>
    simp only [request_router_inner, sync_with_leader]
    exact rbind_ne_diverged
      (rbind_ne_diverged (outcomeOf_ne_diverged _)
        (fun c tr2 => rbind_ne_diverged (outcomeOf_ne_diverged _)
          (fun u tr3 => by simp [rpure])))
      (fun u tr2 => outcomeOf_ne_diverged _)
  | LatestCommit raft_group =>
    simp only [request_router_inner]
    exact rbind_ne_diverged (by simp [callLatestLocalCommit])
      (fun i tr2 => by simp [rpure])
  | RaftGroupLeader raft_group =>
    simp only [request_router_inner]
    exact rbind_ne_diverged (outcomeOf_ne_diverged _)
      (fun i tr2 => by simp [rpure])
  | RaftMessage raft_group data =>
    simp only [request_router_inner]
    obtain ⟨m, hm, ha⟩ := hraft raft_group data rfl
    rw [hm]
    exact rbind_ne_diverged (by simp [callApplyMessages, ha])
      (fun u tr2 => by simp [rpure])

/-- Counterexample to claim C2 as stated: the envelope decodes
successfully (to an inbound raft consensus message), yet the router
produces no response envelope at all — the failing `apply_messages`
collaborator call is unwrapped, which is a Rust panic, not an error
response. -/
theorem c2_counterexample :
    EC2.decode [0] = some (RkyvRequest.RaftMessage 0 [5]) ∧
    (request_router EC2 [0]).1 = Outcome.diverged :=
  ⟨rfl, rfl⟩

/-- Claim C2 (amended): for every request whose envelope decodes, whose
routing metadata does not hit the `RaftGroup`-without-shard-or-inode
panic, which is not FilesystemInformation on a node hosting no shard, and
which is not a raft consensus message whose payload fails to parse or
apply, the router produces exactly one response envelope — a success
payload or a single error code — and never raises to the caller. -/
theorem c2_single_response_envelope (env : Env) (aligned : List Nat) (request : RkyvRequest)
    (hdec : env.decode aligned = some request)
    (hmeta : can_handle_locally (env.meta_info request) env ≠ none)
    (hinfo : request = RkyvRequest.FilesystemInformation → env.all_groups ≠ [])
    (hraft : ∀ g d, request = RkyvRequest.RaftMessage g d →
      ∃ m, env.parse_raft_message d = some m ∧ env.apply_messages g m = Except.ok ()) :
    ∃ out, (request_router env aligned).1 = Outcome.ok out ∧
      (can_handle_locally (env.meta_info request) env = some true →
        ∃ r, out = env.encode r) := by
  have hnd := inner_not_diverged env aligned request hinfo hraft []
  rcases hch : can_handle_locally (env.meta_info request) env with _ | b
  · exact absurd hch hmeta
  · cases b with
    | false =>
      cases hf : env.forward_raw_request aligned (env.meta_info request) with
      | ok r =>
        refine ⟨r, ?_, ?_⟩
        · simp [request_router, hdec, hch, forward_request, hf]
        · intro ht
          simp at ht
      | error e =>
        refine ⟨to_error_response env ErrorCode.Uncategorized, ?_, ?_⟩
        · simp [request_router, hdec, hch, forward_request, hf]
        · intro ht
          simp at ht
    | true =>
      rcases hie : request_router_inner env aligned request [] with ⟨o, tr⟩
      rw [hie] at hnd
      cases o with
      | diverged => exact absurd rfl hnd
      | fail e =>
        exact ⟨to_error_response env e, by simp [request_router, hdec, hch, hie],
          fun _ => ⟨RkyvGenericResponse.ErrorOccurred e, rfl⟩⟩
      | ok r =>
        exact ⟨env.encode r, by simp [request_router, hdec, hch, hie],
          fun _ => ⟨r, rfl⟩⟩

/-- Witness for the amended C2 at a concrete environment and request. -/
theorem c2_single_response_envelope_witness :
    ∃ out, (request_router E0 [0]).1 = Outcome.ok out ∧
      (can_handle_locally (E0.meta_info RkyvRequest.FilesystemReady) E0 = some true →
        ∃ r, out = E0.encode r) :=
  c2_single_response_envelope E0 [0] RkyvRequest.FilesystemReady rfl (by decide)
    (fun h => RkyvRequest.noConfusion h) (fun g d h => RkyvRequest.noConfusion h)
